import Mathlib

/-!
Verification of the GAD (3GPP TS 23.032 Universal Geographical Area
Description) encoder/decoder from libosmocore, src/gsm/gad.c.

The C code is shallowly embedded: machine integers become Nat/Int with
explicit masks where overflow or bit extraction matters, the msgb output
buffer becomes the list of appended bytes, and the talloc-allocated
osmo_gad_err record becomes an explicit structure value.  All definitions
are translated from gad.c; the few collaborator functions that live
elsewhere in libosmocore (byte loads/stores, the value_string lookup) are
modelled from their documented behaviour and marked as such.
-/

/-! ## Shape type discriminators (include/osmocom/gsm/protocol/gsm_23_032.h) -/

def GAD_TYPE_ELL_POINT : Nat := 0
def GAD_TYPE_ELL_POINT_UNC_CIRCLE : Nat := 1
def GAD_TYPE_ELL_POINT_UNC_ELLIPSE : Nat := 3
def GAD_TYPE_POLYGON : Nat := 5
def GAD_TYPE_ELL_POINT_ALT : Nat := 8
def GAD_TYPE_ELL_POINT_ALT_UNC_ELL : Nat := 9
def GAD_TYPE_ELL_ARC : Nat := 10
def GAD_TYPE_HA_ELL_POINT_UNC_ELLIPSE : Nat := 11
def GAD_TYPE_HA_ELL_POINT_ALT_UNC_ELL : Nat := 12

/-- Linux errno value used by gad.c via -EINVAL. -/
def EINVAL : Int := 22

/-- Linux errno value used by gad.c via -ENOTSUP. -/
def ENOTSUP : Int := 95

/-! ## Quantizer (gad.c lines 62-202) -/

/-- osmo_gad_enc_lat (gad.c line 62).  The C function takes an int32
latitude in micro degrees; if negative, the sign flag 1 << 23 is set and
the value negated (natAbs models the negation branch; the int64
arithmetic never overflows for int32 inputs, so Nat division equals the
C division on the nonnegative dividend).  x = |lat| << 23 + (2^23 - 1),
divided by 90e6, and the result is sign | (x & 0x7fffff). -/
def osmo_gad_enc_lat (lat_deg_1e6 : Int) : Nat :=
  (if lat_deg_1e6 < 0 then 1 <<< 23 else 0) |||
    ((lat_deg_1e6.natAbs * 2 ^ 23 + (2 ^ 23 - 1)) / (90 * 1000000) &&& 0x7fffff)

/-- osmo_gad_dec_lat (gad.c line 88).  The parameter is the encoded
latitude code (a nonnegative value below 2^24 in every use, hence Nat).
If bit 23 is set the sign is -1 and the code is masked to 23 bits; the
magnitude is code * 90e6 >> 23 (the dividend is nonnegative, so the C
arithmetic right shift is the Nat shift). -/
def osmo_gad_dec_lat (lat : Nat) : Int :=
  (if lat &&& 0x800000 ≠ 0 then (-1 : Int) else 1) *
    ((((if lat &&& 0x800000 ≠ 0 then lat &&& 0x7fffff else lat) * (90 * 1000000)) >>> 23 : Nat) : Int)

/-- osmo_gad_enc_lon (gad.c line 110).  x = lon * 2^24, biased away from
zero by 2^24 - 1, divided by 360e6 with C truncating division (Int.tdiv);
the C cast (uint32_t)(x & 0xffffff) takes the low 24 bits of the
two's-complement int64, which is x mod 2^24 (the Int % here is the
Euclidean mod, nonnegative for the positive modulus). -/
def osmo_gad_enc_lon (lon_deg_1e6 : Int) : Nat :=
  (((if 0 ≤ lon_deg_1e6 then lon_deg_1e6 * 2 ^ 24 + (2 ^ 24 - 1)
     else lon_deg_1e6 * 2 ^ 24 - (2 ^ 24 - 1)).tdiv (360 * 1000000)) % (2 ^ 24)).toNat

/-- osmo_gad_dec_lon (gad.c line 134).  The parameter is the encoded
24-bit longitude code.  The C code sign-extends via lon |= 0xff000000,
which for a 24-bit code with bit 23 set equals lon - 2^24 as an int32;
then x = lon * 360e6 / 2^24 with C truncating division. -/
def osmo_gad_dec_lon (lon : Nat) : Int :=
  ((if lon &&& 0x800000 ≠ 0 then (lon : Int) - 2 ^ 24 else (lon : Int)) *
    (360 * 1000000)).tdiv (2 ^ 24)

/-- table_uncertainty_1e3 (gad.c line 161): 128 millimeter thresholds
r(k) = 10 * (1.1^k - 1), scaled by 1000. -/
def table_uncertainty_1e3 : List Nat := [
  0, 1000, 2100, 3310, 4641, 6105, 7715, 9487, 11435, 13579, 15937, 18531, 21384, 24522, 27974, 31772, 35949,
  40544, 45599, 51159, 57274, 64002, 71402, 79543, 88497, 98347, 109181, 121099, 134209, 148630, 164494, 181943,
  201137, 222251, 245476, 271024, 299126, 330039, 364043, 401447, 442592, 487851, 537636, 592400, 652640, 718904,
  791795, 871974, 960172, 1057189, 1163908, 1281299, 1410429, 1552472, 1708719, 1880591, 2069650, 2277615,
  2506377, 2758014, 3034816, 3339298, 3674227, 4042650, 4447915, 4893707, 5384077, 5923485, 6516834, 7169517,
  7887469, 8677216, 9545938, 10501531, 11552685, 12708953, 13980849, 15379933, 16918927, 18611820, 20474002,
  22522402, 24775642, 27254206, 29980627, 32979690, 36278659, 39907525, 43899277, 48290205, 53120226, 58433248,
  64277573, 70706330, 77777964, 85556760, 94113436, 103525780, 113879358, 125268293, 137796123, 151576735,
  166735409, 183409950, 201751945, 221928139, 244121953, 268535149, 295389664, 324929630, 357423593, 393166952,
  432484648, 475734112, 523308524, 575640376, 633205414, 696526955, 766180651, 842799716, 927080688, 1019789756,
  1121769732, 1233947705, 1357343476, 1493078824, 1642387706, 1806627477]

/-- osmo_gad_dec_unc (gad.c line 182): table_uncertainty_1e3[unc & 0x7f].
The index is always in bounds after the mask, so getD never uses its
default. -/
def osmo_gad_dec_unc (unc : Nat) : Nat :=
  table_uncertainty_1e3.getD (unc &&& 0x7f) 0

/-- The loop of osmo_gad_enc_unc (gad.c line 197), walking the table
entries in order with their index unc: the first entry exceeding mm ends
the loop with unc - 1 (never reached at unc = 0 since table[0] = 0 is
never greater than an unsigned mm), and running off the end returns 127. -/
def enc_unc_go (mm : Nat) (unc : Nat) : List Nat → Nat
  | [] => 127
  | t :: rest => if t > mm then unc - 1 else enc_unc_go mm (unc + 1) rest

/-- osmo_gad_enc_unc (gad.c line 194). -/
def osmo_gad_enc_unc (mm : Nat) : Nat :=
  enc_unc_go mm 0 table_uncertainty_1e3

/-! ## Bridge lemmas between C bit operations and arithmetic -/

/-- The sign-bit test n & 0x800000, phrased arithmetically. -/
lemma and_sign_bit (n : Nat) :
    n &&& 0x800000 = (if n / 2 ^ 23 % 2 = 1 then 2 ^ 23 else 0) := by
  have h : n &&& 2 ^ 23 = (n.testBit 23).toNat * 2 ^ 23 := Nat.and_two_pow n 23
  rw [Nat.testBit_to_div_mod] at h
  have e : (0x800000 : Nat) = 2 ^ 23 := by norm_num
  rw [e, h]
  by_cases hc : n / 2 ^ 23 % 2 = 1
  · rw [decide_eq_true hc, if_pos hc]
    norm_num
  · rw [decide_eq_false hc, if_neg hc]
    norm_num

/-- The 23-bit mask n & 0x7fffff is n mod 2^23. -/
lemma and_mask23 (n : Nat) : n &&& 0x7fffff = n % 2 ^ 23 := by
  have h := Nat.and_pow_two_sub_one_eq_mod n 23
  norm_num at h ⊢
  exact h

/-- Setting the sign bit over a 23-bit magnitude is addition. -/
lemma lor_sign_bit (m : Nat) (h : m < 2 ^ 23) : 2 ^ 23 ||| m = 2 ^ 23 + m := by
  have := Nat.mul_add_lt_is_or h 1
  simpa [Nat.mul_one] using this.symm

/-! ## Arithmetic characterizations of the latitude/longitude codecs -/

/-- osmo_gad_dec_lat on a code with the sign bit clear. -/
lemma dec_lat_of_sign_clear (code : Nat) (h : ¬ code / 2 ^ 23 % 2 = 1) :
    osmo_gad_dec_lat code = ((code * (90 * 1000000) / 2 ^ 23 : Nat) : Int) := by
  unfold osmo_gad_dec_lat
  rw [and_sign_bit code, if_neg h]
  simp [Nat.shiftRight_eq_div_pow]

/-- osmo_gad_dec_lat on a code with the sign bit set. -/
lemma dec_lat_of_sign_set (code : Nat) (h : code / 2 ^ 23 % 2 = 1) :
    osmo_gad_dec_lat code = -((code % 2 ^ 23 * (90 * 1000000) / 2 ^ 23 : Nat) : Int) := by
  unfold osmo_gad_dec_lat
  rw [and_sign_bit code, if_pos h, and_mask23]
  simp [Nat.shiftRight_eq_div_pow]

/-- osmo_gad_enc_lat on a nonnegative latitude. -/
lemma enc_lat_of_nonneg (K : Nat) :
    osmo_gad_enc_lat (K : Int) =
      (K * 2 ^ 23 + (2 ^ 23 - 1)) / (90 * 1000000) % 2 ^ 23 := by
  unfold osmo_gad_enc_lat
  rw [if_neg (by omega : ¬ ((K : Int) < 0)), Int.natAbs_ofNat, and_mask23]
  simp

/-- osmo_gad_enc_lat on a strictly negative latitude. -/
lemma enc_lat_of_neg (K : Nat) (h : 1 ≤ K) :
    osmo_gad_enc_lat (-(K : Int)) =
      2 ^ 23 + (K * 2 ^ 23 + (2 ^ 23 - 1)) / (90 * 1000000) % 2 ^ 23 := by
  unfold osmo_gad_enc_lat
  rw [if_pos (by omega : (-(K : Int)) < 0), Int.natAbs_neg, Int.natAbs_ofNat,
    and_mask23, Nat.one_shiftLeft, lor_sign_bit _ (by omega)]

/-- osmo_gad_dec_lon on a code with bit 23 clear. -/
lemma dec_lon_of_sign_clear (code : Nat) (h : ¬ code / 2 ^ 23 % 2 = 1) :
    osmo_gad_dec_lon code = ((code * (360 * 1000000) / 2 ^ 24 : Nat) : Int) := by
  unfold osmo_gad_dec_lon
  rw [and_sign_bit code, if_neg h, if_neg (by norm_num : ¬ (0 : Nat) ≠ 0)]
  rw [show ((code : Int) * (360 * 1000000)) = ((code * (360 * 1000000) : Nat) : Int) from by
    omega]
  rw [show ((2 : Int) ^ 24) = ((2 ^ 24 : Nat) : Int) from by norm_num]
  rw [← Int.ofNat_tdiv]

/-- osmo_gad_dec_lon on a 24-bit code with bit 23 set. -/
lemma dec_lon_of_sign_set (code : Nat) (h24 : code < 2 ^ 24) (h : code / 2 ^ 23 % 2 = 1) :
    osmo_gad_dec_lon code = -(((2 ^ 24 - code) * (360 * 1000000) / 2 ^ 24 : Nat) : Int) := by
  unfold osmo_gad_dec_lon
  rw [and_sign_bit code, if_pos h, if_pos (by norm_num : (2 : Nat) ^ 23 ≠ 0)]
  rw [show (((code : Int) - 2 ^ 24) * (360 * 1000000))
      = -(((2 ^ 24 - code) * (360 * 1000000) : Nat) : Int) from by omega]
  rw [Int.neg_tdiv]
  rw [show ((2 : Int) ^ 24) = ((2 ^ 24 : Nat) : Int) from by norm_num]
  rw [← Int.ofNat_tdiv]

/-- osmo_gad_enc_lon on a nonnegative longitude. -/
lemma enc_lon_of_nonneg (K : Nat) :
    osmo_gad_enc_lon (K : Int) =
      (K * 2 ^ 24 + (2 ^ 24 - 1)) / (360 * 1000000) % 2 ^ 24 := by
  unfold osmo_gad_enc_lon
  rw [if_pos (by omega : (0 : Int) ≤ (K : Int))]
  rw [show ((K : Int) * 2 ^ 24 + (2 ^ 24 - 1))
      = ((K * 2 ^ 24 + (2 ^ 24 - 1) : Nat) : Int) from by omega]
  rw [show ((360 * 1000000 : Int)) = ((360 * 1000000 : Nat) : Int) from by norm_num]
  rw [← Int.ofNat_tdiv]
  omega

/-- osmo_gad_enc_lon on a strictly negative longitude. -/
lemma enc_lon_of_neg (K : Nat) (h : 1 ≤ K) :
    osmo_gad_enc_lon (-(K : Int)) =
      (2 ^ 24 - (K * 2 ^ 24 + (2 ^ 24 - 1)) / (360 * 1000000) % 2 ^ 24) % 2 ^ 24 := by
  unfold osmo_gad_enc_lon
  rw [if_neg (by omega : ¬ (0 : Int) ≤ (-(K : Int)))]
  rw [show ((-(K : Int)) * 2 ^ 24 - (2 ^ 24 - 1))
      = -((K * 2 ^ 24 + (2 ^ 24 - 1) : Nat) : Int) from by omega]
  rw [Int.neg_tdiv]
  rw [show ((360 * 1000000 : Int)) = ((360 * 1000000 : Nat) : Int) from by norm_num]
  rw [← Int.ofNat_tdiv]
  omega

/-- The key quantizer identity: decoding (truncating division by D after
multiplying by M) followed by the ceiling-biased re-encoding returns the
original code, whenever the bias D - 1 stays below the divisor M. -/
lemma div_roundtrip (v M D : Nat) (hD : 0 < D) (hDM : D ≤ M) :
    (v * M / D * D + (D - 1)) / M = v := by
  have h1 := Nat.div_add_mod (v * M) D
  have hr : v * M % D < D := Nat.mod_lt _ hD
  generalize hq : v * M / D = q at h1 ⊢
  generalize hm : v * M % D = r at h1 hr
  have h2 : q * D + (D - 1) = (D - 1 - r) + v * M := by
    rw [← h1, Nat.mul_comm q D]
    omega
  rw [h2, Nat.add_mul_div_right _ _ (by omega : 0 < M),
    Nat.div_eq_of_lt (by omega : D - 1 - r < M)]
  omega

/-- Claim C1: for every 24-bit latitude code, re-encoding the decoded
value reproduces the code, with the single exception of the negative-zero
pattern 0x800000, which decodes to 0 and re-encodes to 0. -/
theorem gad_lat_dec_enc_stability :
    (∀ code : Nat, code < 0x1000000 → code ≠ 0x800000 →
      osmo_gad_enc_lat (osmo_gad_dec_lat code) = code) ∧
    osmo_gad_dec_lat 0x800000 = 0 ∧
    osmo_gad_enc_lat (osmo_gad_dec_lat 0x800000) = 0 := by
  refine ⟨?_, by decide, by decide⟩
  intro code h24 hne
  by_cases hs : code / 2 ^ 23 % 2 = 1
  · rw [dec_lat_of_sign_set code hs]
    rw [enc_lat_of_neg _ (by omega)]
    rw [div_roundtrip (code % 2 ^ 23) (90 * 1000000) (2 ^ 23) (by norm_num) (by norm_num)]
    omega
  · rw [dec_lat_of_sign_clear code hs, enc_lat_of_nonneg]
    rw [div_roundtrip code (90 * 1000000) (2 ^ 23) (by norm_num) (by norm_num)]
    omega

/-- Witness for C1 at the concrete code 0x7fffff. -/
theorem gad_lat_dec_enc_stability_witness :
    osmo_gad_enc_lat (osmo_gad_dec_lat 0x7fffff) = 0x7fffff :=
  gad_lat_dec_enc_stability.1 0x7fffff (by decide) (by decide)

/-- Claim C2: for every 24-bit longitude code, re-encoding the decoded
value reproduces the code, with no special case. -/
theorem gad_lon_dec_enc_stability :
    ∀ code : Nat, code < 0x1000000 →
      osmo_gad_enc_lon (osmo_gad_dec_lon code) = code := by
  intro code h24
  by_cases hs : code / 2 ^ 23 % 2 = 1
  · rw [dec_lon_of_sign_set code (by omega) hs]
    rw [enc_lon_of_neg _ (by omega)]
    rw [div_roundtrip (2 ^ 24 - code) (360 * 1000000) (2 ^ 24) (by norm_num) (by norm_num)]
    omega
  · rw [dec_lon_of_sign_clear code hs, enc_lon_of_nonneg]
    rw [div_roundtrip code (360 * 1000000) (2 ^ 24) (by norm_num) (by norm_num)]
    omega

/-- Witness for C2 at the concrete code 0x823456. -/
theorem gad_lon_dec_enc_stability_witness :
    osmo_gad_enc_lon (osmo_gad_dec_lon 0x823456) = 0x823456 :=
  gad_lon_dec_enc_stability 0x823456 (by decide)

/-- Claim C3: every 7-bit uncertainty code survives the decode/encode
round trip through table_uncertainty_1e3. -/
theorem gad_unc_dec_enc_stability :
    ∀ code : Nat, code < 128 →
      osmo_gad_enc_unc (osmo_gad_dec_unc code) = code := by decide

/-- Witness for C3 at the concrete code 40. -/
theorem gad_unc_dec_enc_stability_witness :
    osmo_gad_enc_unc (osmo_gad_dec_unc 40) = 40 :=
  gad_unc_dec_enc_stability 40 (by decide)

/-- Adjacent entries of the uncertainty table are strictly separated. -/
lemma table_unc_mono_adjacent : ∀ i, i < 127 →
    table_uncertainty_1e3.getD i 0 ≤ table_uncertainty_1e3.getD (i + 1) 0 := by decide

/-- The uncertainty table is monotone on its 128 indices. -/
lemma table_unc_mono (i j : Nat) (hij : i ≤ j) (hj : j < 128) :
    table_uncertainty_1e3.getD i 0 ≤ table_uncertainty_1e3.getD j 0 := by
  induction j with
  | zero =>
    have h0 : i = 0 := by omega
    subst h0
    exact le_rfl
  | succ n ihn =>
    rcases Nat.lt_or_ge i (n + 1) with h | h
    · exact le_trans (ihn (by omega) (by omega)) (table_unc_mono_adjacent n (by omega))
    · have h1 : i = n + 1 := by omega
      subst h1
      exact le_rfl

/-- The loop of osmo_gad_enc_unc, specified: walking the suffix of the
table that starts at index unc (with all earlier entries at most mm), it
returns the greatest table index whose entry is at most mm. -/
lemma enc_unc_go_greatest (mm : Nat) :
    ∀ (l : List Nat) (unc : Nat),
      (∀ j, j < l.length → l.getD j 0 = table_uncertainty_1e3.getD (unc + j) 0) →
      unc + l.length = 128 →
      (unc = 0 ∨ table_uncertainty_1e3.getD (unc - 1) 0 ≤ mm) →
      enc_unc_go mm unc l < 128 ∧
      table_uncertainty_1e3.getD (enc_unc_go mm unc l) 0 ≤ mm ∧
      (∀ k, k < 128 → table_uncertainty_1e3.getD k 0 ≤ mm → k ≤ enc_unc_go mm unc l) := by
  intro l
  induction l with
  | nil =>
    intro unc hsuf hlen hprev
    simp only [enc_unc_go]
    simp only [List.length_nil] at hlen
    refine ⟨by omega, ?_, fun k hk _ => by omega⟩
    rcases hprev with h0 | hle
    · omega
    · rw [show (127 : Nat) = unc - 1 from by omega]
      exact hle
  | cons t rest ih =>
    intro unc hsuf hlen hprev
    have ht : t = table_uncertainty_1e3.getD unc 0 := by
      have h := hsuf 0 (by simp)
      simpa using h
    simp only [List.length_cons] at hlen
    simp only [enc_unc_go]
    by_cases hgt : t > mm
    · rw [if_pos hgt]
      have hunc0 : unc ≠ 0 := by
        intro h0
        rw [h0, show table_uncertainty_1e3.getD 0 0 = 0 from rfl] at ht
        omega
      have hprev' : table_uncertainty_1e3.getD (unc - 1) 0 ≤ mm := by
        rcases hprev with h | h
        · exact absurd h hunc0
        · exact h
      refine ⟨by omega, hprev', ?_⟩
      intro k hk hkle
      by_contra hcon
      push_neg at hcon
      have hmono : table_uncertainty_1e3.getD unc 0 ≤ table_uncertainty_1e3.getD k 0 :=
        table_unc_mono unc k (by omega) hk
      omega
    · rw [if_neg hgt]
      apply ih (unc + 1)
      · intro j hj
        have h := hsuf (j + 1) (by simpa using Nat.succ_lt_succ hj)
        rw [List.getD_cons_succ] at h
        rw [h]
        congr 1
        omega
      · omega
      · right
        rw [show unc + 1 - 1 = unc from by omega, ← ht]
        omega

set_option maxRecDepth 4000 in
/-- Claim C8: osmo_gad_enc_unc mm is the greatest index k in [0, 127]
with table_uncertainty_1e3[k] <= mm (so in particular it returns 127
whenever mm is at least the last table entry), well defined for every
unsigned mm since the first table entry is 0. -/
theorem gad_enc_unc_greatest (mm : Nat) :
    osmo_gad_enc_unc mm < 128 ∧
    table_uncertainty_1e3.getD (osmo_gad_enc_unc mm) 0 ≤ mm ∧
    (∀ k, k < 128 → table_uncertainty_1e3.getD k 0 ≤ mm → k ≤ osmo_gad_enc_unc mm) := by
  unfold osmo_gad_enc_unc
  exact enc_unc_go_greatest mm table_uncertainty_1e3 0
    (fun j hj => by rw [Nat.zero_add]) (by decide) (Or.inl rfl)

/-- Witness for C8 at mm = 31772 (the exact table entry at index 15). -/
theorem gad_enc_unc_greatest_witness :
    15 ≤ osmo_gad_enc_unc 31772 ∧ osmo_gad_enc_unc 31772 < 128 :=
  ⟨(gad_enc_unc_greatest 31772).2.2 15 (by decide) (by decide),
   (gad_enc_unc_greatest 31772).1⟩

/-- Claim C10: at the domain boundary the magnitude computation yields
exactly 2^23, and the 23-bit mask discards that bit: +90 degrees encodes
to 0 (the same code as latitude 0) and -90 degrees encodes to the
negative-zero pattern 0x800000, which decodes to 0. -/
theorem gad_enc_lat_boundary :
    osmo_gad_enc_lat 90000000 = 0 ∧
    osmo_gad_enc_lat (-90000000) = 0x800000 ∧
    osmo_gad_dec_lat 0x800000 = 0 ∧
    ((90000000 : Nat) * 2 ^ 23 + (2 ^ 23 - 1)) / (90 * 1000000) = 2 ^ 23 := by decide

/-! ## PDU data model (include/osmocom/gsm/protocol/gsm_23_032.h)

The C struct gad_pdu carries a type discriminator and a union of all
nine variant structs.  The embedding keeps the two variants that gad.c
actually reads or writes (the remaining variants are never touched by
any code path under verification).  The zero-fill assignment
`*gad = (struct gad_pdu)()` clears the whole union, which the record
model renders as zeroing every modelled field. -/

/-- struct gad_ell_point: lat/lon in micro degrees. -/
structure gad_ell_point where
  lat : Int
  lon : Int
deriving DecidableEq

/-- struct gad_ell_point_unc_circle: lat/lon in micro degrees, unc in
millimeters. -/
structure gad_ell_point_unc_circle where
  lat : Int
  lon : Int
  unc : Nat
deriving DecidableEq

/-- struct gad_pdu (discriminator plus the modelled union members). -/
structure gad_pdu where
  type : Nat
  ell_point : gad_ell_point
  ell_point_unc_circle : gad_ell_point_unc_circle
deriving DecidableEq

/-- The all-zero PDU produced by `*gad = (struct gad_pdu)()`. -/
def zero_gad_pdu : gad_pdu :=
  { type := 0,
    ell_point := { lat := 0, lon := 0 },
    ell_point_unc_circle := { lat := 0, lon := 0, unc := 0 } }

/-- struct osmo_gad_err (gad.h line 35). -/
structure osmo_gad_err where
  rc : Int
  type : Int
  logmsg : String
deriving DecidableEq

/-- osmo_gad_type_names (gad.c line 36). -/
def osmo_gad_type_names : List (Nat × String) := [
  (GAD_TYPE_ELL_POINT, "Ellipsoid-point"),
  (GAD_TYPE_ELL_POINT_UNC_CIRCLE, "Ellipsoid-point-with-uncertainty-circle"),
  (GAD_TYPE_ELL_POINT_UNC_ELLIPSE, "Ellipsoid-point-with-uncertainty-ellipse"),
  (GAD_TYPE_POLYGON, "Polygon"),
  (GAD_TYPE_ELL_POINT_ALT, "Ellipsoid-point-with-altitude"),
  (GAD_TYPE_ELL_POINT_ALT_UNC_ELL, "Ellipsoid-point-with-altitude-and-uncertainty-ellipsoid"),
  (GAD_TYPE_ELL_ARC, "Ellipsoid-arc"),
  (GAD_TYPE_HA_ELL_POINT_UNC_ELLIPSE, "High-accuracy-ellipsoid-point-with-uncertainty-ellipse"),
  (GAD_TYPE_HA_ELL_POINT_ALT_UNC_ELL, "High-accuracy-ellipsoid-point-with-altitude-and-uncertainty-ellipsoid")]

/-- Modelled from the spec: lowercase hex rendering used by the %x
conversions in the collaborator formatting code. -/
def hexStr (n : Nat) : String := String.mk (Nat.toDigits 16 n)

/-- Modelled from the spec: the external discriminator-to-name lookup
(get_value_string over osmo_gad_type_names, libosmocore utils.c, not
under src/); unlisted values format as an unknown marker. -/
def osmo_gad_type_name (val : Int) : String :=
  match osmo_gad_type_names.find? (fun p => ((p.1 : Int)) == val) with
  | some p => p.2
  | none => "unknown 0x" ++ hexStr val.toNat

/-- The record allocated by the DEC_ERR macro (gad.c line 251): rc, type
and the message "Error decoding GAD[ name]: detail", where the name
segment appears only when the TYPE argument is nonnegative. -/
def dec_err_rec (rc : Int) (ty : Int) (detail : String) : osmo_gad_err :=
  { rc := rc, type := ty,
    logmsg := "Error decoding GAD" ++
      (if 0 ≤ ty then " " ++ osmo_gad_type_name ty else "") ++ ": " ++ detail }

/-! ## Variant codec and dispatcher (gad.c lines 265-342) -/

/-- Modelled from the spec: osmo_load32be_ext_2 (libosmocore core, not
under src/) loads len bytes big-endian from data starting at pos into
the low bytes of the result; gad.c calls it with len = 3 to read 24-bit
big-endian integers (spec wire format, offsets 1-3 and 4-6). -/
def osmo_load32be_ext_2 (data : List Nat) (pos len : Nat) : Nat :=
  (List.range len).foldl (fun acc i => acc * 256 + data.getD (pos + i) 0) 0

/-- put_u24be (gad.c line 49): appends the 3 low bytes of val in
big-endian order (osmo_store32be_ext is libosmocore core code, not under
src/, modelled from the spec wire-format description). -/
def put_u24be (val : Nat) : List Nat :=
  [val >>> 16 &&& 0xff, val >>> 8 &&& 0xff, val &&& 0xff]

/-- osmo_gad_enc_ell_point_unc_circle (gad.c line 265): the byte list
appended to the msgb, and the return value msg->tail - old_tail. -/
def osmo_gad_enc_ell_point_unc_circle (v : gad_ell_point_unc_circle) : List Nat × Int :=
  let bytes := (GAD_TYPE_ELL_POINT_UNC_CIRCLE <<< 4) ::
    (put_u24be (osmo_gad_enc_lat v.lat) ++ put_u24be (osmo_gad_enc_lon v.lon) ++
      [osmo_gad_enc_unc v.unc])
  (bytes, (bytes.length : Int))

/-- osmo_gad_enc (gad.c line 304): dispatch on gad->type; only the
uncertainty-circle shape is implemented, every other discriminator
returns -ENOTSUP with nothing appended. -/
def osmo_gad_enc (gad : gad_pdu) : List Nat × Int :=
  if gad.type = GAD_TYPE_ELL_POINT_UNC_CIRCLE then
    osmo_gad_enc_ell_point_unc_circle gad.ell_point_unc_circle
  else ([], -ENOTSUP)

/-- osmo_gad_dec_ell_point_unc_circle (gad.c line 275).  The C function
writes fields through the v pointer; the embedding threads the record,
returning (rc, final v, err).  Field writes that precede a failing check
remain visible in the returned record, exactly as in C. -/
def osmo_gad_dec_ell_point_unc_circle (v0 : gad_ell_point_unc_circle) (data : List Nat) :
    Int × gad_ell_point_unc_circle × Option osmo_gad_err :=
  if data.length ≠ 8 then
    (-EINVAL, v0, some (dec_err_rec (-EINVAL) (-1)
      ("Expecting length of 8 bytes, got " ++ toString data.length)))
  else
    let v1 : gad_ell_point_unc_circle :=
      { v0 with lat := osmo_gad_dec_lat (osmo_load32be_ext_2 data 1 3) }
    let v2 : gad_ell_point_unc_circle :=
      { v1 with lon := osmo_gad_dec_lon (osmo_load32be_ext_2 data 4 3) }
    let unc := data.getD 7 0
    if unc &&& 0x80 ≠ 0 then
      (-EINVAL, v2, some (dec_err_rec (-EINVAL) (-1)
        ("Bit 8 of Uncertainty code should be zero (unc = 0x" ++ hexStr unc ++ ")")))
    else
      (0, { v2 with unc := osmo_gad_dec_unc unc }, none)

/-- osmo_gad_dec (gad.c line 322).  gad0 is the caller's output PDU as
it stood before the call; the C function writes through the pointer, so
the returned PDU equals gad0 exactly when the function returns before
touching it (the len < 1 path returns before the zero-fill).  The err
output parameter becomes an Option (a NULL err caller just discards it).
After the switch, the C code overwrites err->type with gad->type for an
error coming out of the case branch. -/
def osmo_gad_dec (gad0 : gad_pdu) (data : List Nat) :
    Int × gad_pdu × Option osmo_gad_err :=
  if data.length < 1 then
    (-EINVAL, gad0, some (dec_err_rec (-EINVAL) (-1) "zero length"))
  else if data.getD 0 0 >>> 4 = GAD_TYPE_ELL_POINT_UNC_CIRCLE then
    let r := osmo_gad_dec_ell_point_unc_circle zero_gad_pdu.ell_point_unc_circle data
    (r.1,
     { zero_gad_pdu with type := data.getD 0 0 >>> 4, ell_point_unc_circle := r.2.1 },
     match r.2.2 with
     | some e => some { e with type := ((data.getD 0 0 >>> 4 : Nat) : Int) }
     | none => none)
  else
    (-ENOTSUP, { zero_gad_pdu with type := data.getD 0 0 >>> 4 },
     some (dec_err_rec (-ENOTSUP) ((data.getD 0 0 >>> 4 : Nat) : Int)
       "unsupported GAD type"))

/-- osmo_gad_to_str_buf (gad.c line 350), modelled as the full string the
function renders (the C return value is the snprintf-style count of
characters needed; buffer truncation is not modelled).  The collaborator
osmo_micros_to_float_str_buf (libosmocore utils, not under src/) is
passed in as micros_str.  The GAD_TYPE_ELL_POINT case of the C switch
has no break and falls through into the GAD_TYPE_ELL_POINT_UNC_CIRCLE
case; the embedding reproduces that fall-through, with the field
references translated literally (first gad->ell_point.lat/.lon, then the
gad->ell_point_unc_circle fields printed by the fall-through). -/
def osmo_gad_to_str_buf (micros_str : Int → String) (gad : Option gad_pdu) : String :=
  match gad with
  | none => "null"
  | some gad =>
    osmo_gad_type_name (gad.type : Int) ++ "\x7b" ++
      (if gad.type = GAD_TYPE_ELL_POINT then
        "lat=" ++ micros_str gad.ell_point.lat ++ ",lon=" ++ micros_str gad.ell_point.lon ++
        "lat=" ++ micros_str gad.ell_point_unc_circle.lat ++ ",lon=" ++
        micros_str gad.ell_point_unc_circle.lon ++ ",unc=" ++
        toString gad.ell_point_unc_circle.unc ++ "mm"
      else if gad.type = GAD_TYPE_ELL_POINT_UNC_CIRCLE then
        "lat=" ++ micros_str gad.ell_point_unc_circle.lat ++ ",lon=" ++
        micros_str gad.ell_point_unc_circle.lon ++ ",unc=" ++
        toString gad.ell_point_unc_circle.unc ++ "mm"
      else "to-str-not-implemented") ++ "\x7d"

/-- A list of length 8 is literally its eight elements. -/
lemma list_len8 (data : List Nat) (h8 : data.length = 8) :
    ∃ b0 b1 b2 b3 b4 b5 b6 b7, data = [b0, b1, b2, b3, b4, b5, b6, b7] := by
  rcases data with _ | ⟨b0, _ | ⟨b1, _ | ⟨b2, _ | ⟨b3, _ | ⟨b4, _ | ⟨b5, _ |
    ⟨b6, _ | ⟨b7, _ | ⟨b8, rest⟩⟩⟩⟩⟩⟩⟩⟩⟩ <;> simp_all

/-- Counterexample to C4 as stated: osmo_gad_dec on a zero-length buffer
returns -EINVAL before the zero-fill of the output PDU is reached, so a
caller's stale nonzero PDU survives the failed decode unchanged. -/
theorem gad_dec_empty_input_stale_output :
    (osmo_gad_dec (gad_pdu.mk 5 (gad_ell_point.mk 7 8) (gad_ell_point_unc_circle.mk 9 10 11))
        []).2.1 =
      gad_pdu.mk 5 (gad_ell_point.mk 7 8) (gad_ell_point_unc_circle.mk 9 10 11) ∧
    gad_pdu.mk 5 (gad_ell_point.mk 7 8) (gad_ell_point_unc_circle.mk 9 10 11) ≠ zero_gad_pdu :=
  ⟨rfl, by decide⟩

/-- Amended C4: for every input of length at least 1, osmo_gad_dec
zero-initializes the output PDU before populating any field, so the
result never depends on the output's prior contents; a zero-length input
fails without touching the output at all. -/
theorem gad_dec_zero_initializes :
    (∀ (gad0 gad0' : gad_pdu) (data : List Nat), 1 ≤ data.length →
      osmo_gad_dec gad0 data = osmo_gad_dec gad0' data) ∧
    (∀ gad0 : gad_pdu, (osmo_gad_dec gad0 []).2.1 = gad0) := by
  constructor
  · intro gad0 gad0' data hlen
    unfold osmo_gad_dec
    have h1 : ¬ data.length < 1 := by omega
    rw [if_neg h1, if_neg h1]
  · intro gad0
    rfl

/-- Witness for the amended C4 at concrete stale outputs and inputs. -/
theorem gad_dec_zero_initializes_witness :
    osmo_gad_dec (gad_pdu.mk 5 (gad_ell_point.mk 7 8) (gad_ell_point_unc_circle.mk 9 10 11))
        [0x20] =
      osmo_gad_dec zero_gad_pdu [0x20] ∧
    (osmo_gad_dec (gad_pdu.mk 5 (gad_ell_point.mk 7 8) (gad_ell_point_unc_circle.mk 9 10 11))
        []).2.1 =
      gad_pdu.mk 5 (gad_ell_point.mk 7 8) (gad_ell_point_unc_circle.mk 9 10 11) :=
  ⟨gad_dec_zero_initializes.1
      (gad_pdu.mk 5 (gad_ell_point.mk 7 8) (gad_ell_point_unc_circle.mk 9 10 11))
      zero_gad_pdu [0x20] (by decide),
   gad_dec_zero_initializes.2
      (gad_pdu.mk 5 (gad_ell_point.mk 7 8) (gad_ell_point_unc_circle.mk 9 10 11))⟩

/-- Claim C5: encoding an uncertainty-circle PDU appends exactly the
8-byte frame: byte 0 is (type << 4) | 0, bytes 1-3 the big-endian
encoded latitude, bytes 4-6 the big-endian encoded longitude, byte 7 the
encoded uncertainty, and the return value is 8. -/
theorem gad_enc_unc_circle_layout (gad : gad_pdu)
    (h : gad.type = GAD_TYPE_ELL_POINT_UNC_CIRCLE) :
    osmo_gad_enc gad =
      ([GAD_TYPE_ELL_POINT_UNC_CIRCLE <<< 4 ||| 0,
        osmo_gad_enc_lat gad.ell_point_unc_circle.lat >>> 16 &&& 0xff,
        osmo_gad_enc_lat gad.ell_point_unc_circle.lat >>> 8 &&& 0xff,
        osmo_gad_enc_lat gad.ell_point_unc_circle.lat &&& 0xff,
        osmo_gad_enc_lon gad.ell_point_unc_circle.lon >>> 16 &&& 0xff,
        osmo_gad_enc_lon gad.ell_point_unc_circle.lon >>> 8 &&& 0xff,
        osmo_gad_enc_lon gad.ell_point_unc_circle.lon &&& 0xff,
        osmo_gad_enc_unc gad.ell_point_unc_circle.unc], 8) := by
  unfold osmo_gad_enc
  rw [if_pos h]
  simp [osmo_gad_enc_ell_point_unc_circle, put_u24be]

/-- Witness for C5 at the test PDU of gad_test.c. -/
theorem gad_enc_unc_circle_layout_witness :
    osmo_gad_enc (gad_pdu.mk 1 (gad_ell_point.mk 0 0)
      (gad_ell_point_unc_circle.mk 23000006 42000002 442592)) =
      ([16, 32, 182, 12, 29, 221, 222, 40], 8) :=
  (gad_enc_unc_circle_layout
    (gad_pdu.mk 1 (gad_ell_point.mk 0 0)
      (gad_ell_point_unc_circle.mk 23000006 42000002 442592)) rfl).trans (by decide)

/-- Claim C6: osmo_gad_dec classifies failures exactly as the spec says:
zero-length input gives the EmptyInput record (rc -EINVAL, type -1,
message "zero length"); an uncertainty-circle type nibble with length
other than 8 gives the InvalidLength record; an 8-byte uncertainty-circle
input with bit 7 of byte 7 set gives the ReservedBitSet record; with
that bit clear the decode succeeds with return code 0. -/
theorem gad_dec_error_classification :
    (∀ gad0 : gad_pdu, osmo_gad_dec gad0 [] =
      (-EINVAL, gad0,
       some (osmo_gad_err.mk (-EINVAL) (-1) "Error decoding GAD: zero length"))) ∧
    (∀ (gad0 : gad_pdu) (data : List Nat),
      data.getD 0 0 >>> 4 = GAD_TYPE_ELL_POINT_UNC_CIRCLE →
      1 ≤ data.length → data.length ≠ 8 →
      (osmo_gad_dec gad0 data).1 = -EINVAL ∧
      (osmo_gad_dec gad0 data).2.2 = some (osmo_gad_err.mk (-EINVAL) 1
        ("Error decoding GAD: Expecting length of 8 bytes, got " ++ toString data.length))) ∧
    (∀ (gad0 : gad_pdu) (data : List Nat),
      data.getD 0 0 >>> 4 = GAD_TYPE_ELL_POINT_UNC_CIRCLE →
      data.length = 8 → data.getD 7 0 &&& 0x80 ≠ 0 →
      (osmo_gad_dec gad0 data).1 = -EINVAL ∧
      (osmo_gad_dec gad0 data).2.2 = some (osmo_gad_err.mk (-EINVAL) 1
        ("Error decoding GAD: Bit 8 of Uncertainty code should be zero (unc = 0x" ++
          hexStr (data.getD 7 0) ++ ")"))) ∧
    (∀ (gad0 : gad_pdu) (data : List Nat),
      data.getD 0 0 >>> 4 = GAD_TYPE_ELL_POINT_UNC_CIRCLE →
      data.length = 8 → data.getD 7 0 &&& 0x80 = 0 →
      (osmo_gad_dec gad0 data).1 = 0) := by
  refine ⟨fun gad0 => rfl, ?_, ?_, ?_⟩
  · intro gad0 data hty hlen hne8
    unfold osmo_gad_dec
    rw [if_neg (by omega), if_pos hty]
    simp only [osmo_gad_dec_ell_point_unc_circle, if_pos hne8, hty]
    exact ⟨trivial, rfl⟩
  · intro gad0 data hty h8 hbit
    obtain ⟨b0, b1, b2, b3, b4, b5, b6, b7, rfl⟩ := list_len8 data h8
    simp only [List.getD_cons_zero, List.getD_cons_succ] at hty hbit ⊢
    simp [osmo_gad_dec, osmo_gad_dec_ell_point_unc_circle, dec_err_rec, hty, hbit,
      GAD_TYPE_ELL_POINT_UNC_CIRCLE, ← String.append_assoc]
  · intro gad0 data hty h8 hbit
    obtain ⟨b0, b1, b2, b3, b4, b5, b6, b7, rfl⟩ := list_len8 data h8
    simp only [List.getD_cons_zero, List.getD_cons_succ] at hty hbit ⊢
    simp [osmo_gad_dec, osmo_gad_dec_ell_point_unc_circle, hty, hbit]

/-- Witness for C6 at concrete inputs for all three failure classes and
one success. -/
theorem gad_dec_error_classification_witness :
    osmo_gad_dec zero_gad_pdu [] =
      (-EINVAL, zero_gad_pdu,
       some (osmo_gad_err.mk (-EINVAL) (-1) "Error decoding GAD: zero length")) ∧
    (osmo_gad_dec zero_gad_pdu [0x10, 1, 2]).1 = -EINVAL ∧
    (osmo_gad_dec zero_gad_pdu [0x10, 0x20, 0xB5, 0x4C, 0x1D, 0xDD, 0xDE, 0x88]).1 = -EINVAL ∧
    (osmo_gad_dec zero_gad_pdu [0x10, 0x20, 0xB5, 0x4C, 0x1D, 0xDD, 0xDE, 0x28]).1 = 0 :=
  ⟨gad_dec_error_classification.1 zero_gad_pdu,
   (gad_dec_error_classification.2.1 zero_gad_pdu [0x10, 1, 2]
     (by decide) (by decide) (by decide)).1,
   (gad_dec_error_classification.2.2.1 zero_gad_pdu
     [0x10, 0x20, 0xB5, 0x4C, 0x1D, 0xDD, 0xDE, 0x88] (by decide) (by decide) (by decide)).1,
   gad_dec_error_classification.2.2.2 zero_gad_pdu
     [0x10, 0x20, 0xB5, 0x4C, 0x1D, 0xDD, 0xDE, 0x28] (by decide) (by decide) (by decide)⟩

/-- Claim C7: every discriminator other than the uncertainty circle
(including the unassigned codes 2, 4, 6, 7) encodes to -ENOTSUP with no
bytes produced, and decodes (for a nonempty buffer carrying that type
nibble) to -ENOTSUP with only the type recorded in the otherwise zeroed
output PDU - never decoded as an adjacent variant. -/
theorem gad_unsupported_type :
    (∀ gad : gad_pdu, gad.type ≠ GAD_TYPE_ELL_POINT_UNC_CIRCLE →
      osmo_gad_enc gad = ([], -ENOTSUP)) ∧
    (∀ (gad0 : gad_pdu) (data : List Nat), 1 ≤ data.length →
      data.getD 0 0 >>> 4 ≠ GAD_TYPE_ELL_POINT_UNC_CIRCLE →
      osmo_gad_dec gad0 data =
        (-ENOTSUP, { zero_gad_pdu with type := data.getD 0 0 >>> 4 },
         some (dec_err_rec (-ENOTSUP) ((data.getD 0 0 >>> 4 : Nat) : Int)
           "unsupported GAD type"))) := by
  constructor
  · intro gad h
    unfold osmo_gad_enc
    rw [if_neg h]
  · intro gad0 data hlen hty
    unfold osmo_gad_dec
    rw [if_neg (by omega), if_neg hty]

/-- Witness for C7 at the unassigned discriminator 2. -/
theorem gad_unsupported_type_witness :
    osmo_gad_enc (gad_pdu.mk 2 (gad_ell_point.mk 0 0) (gad_ell_point_unc_circle.mk 0 0 0)) =
      ([], -ENOTSUP) ∧
    (osmo_gad_dec zero_gad_pdu [0x20, 1, 2, 3, 4, 5, 6, 7]).1 = -ENOTSUP :=
  ⟨gad_unsupported_type.1
      (gad_pdu.mk 2 (gad_ell_point.mk 0 0) (gad_ell_point_unc_circle.mk 0 0 0)) (by decide),
   by rw [gad_unsupported_type.2 zero_gad_pdu [0x20, 1, 2, 3, 4, 5, 6, 7]
        (by decide) (by decide)]⟩

/-- Claim C9 is a code bug: the GAD_TYPE_ELL_POINT branch of
osmo_gad_to_str_buf has no break and falls through into the
uncertainty-circle branch, so formatting a plain ellipsoid-point PDU
prints the ell_point lat/lon and then also the uncertainty-circle
variant's lat, lon and unc fields, which the active variant does not
contain.  Evaluated here at a concrete PDU with the identity-style
micros formatter. -/
theorem gad_to_str_ell_point_fall_through :
    osmo_gad_to_str_buf (fun v => toString v)
      (some (gad_pdu.mk GAD_TYPE_ELL_POINT (gad_ell_point.mk 23000000 42000000)
        (gad_ell_point_unc_circle.mk 1 2 12345))) =
      "Ellipsoid-point\x7blat=23000000,lon=42000000lat=1,lon=2,unc=12345mm\x7d" := by
  rfl
